import Mathlib

/-!
Shallow embedding of the monitoring/decision engine of `src/monitor.py`
(a Telegram relay agent).  Strings are modelled as `List Char`, wall-clock
times and the cooldown value as `ℚ`, Python dicts keyed by chat id as
functions `ℕ → Option ℚ`, and the Telegram entity-lookup collaborator as
an abstract function `List Char → Option ℕ` (returning `none` on any
lookup failure, as `get_entity_by_name` maps every exception to `None`).
The mutable globals of the script (`last_config_check`, `current_config`,
`monitored_entities`, `last_forward_times`) together with the on-disk
`users.json` record form the state type `MonitorState`; the
`handle_new_message` event handler becomes a state-transition function
driven by an `Event` record that also carries the environmental
nondeterminism of one event (current time, the record a GitHub config
fetch would yield, transport success).
-/

/-- The `statistics` object stored inside the `users.json` record
(`last_reset` is an opaque timestamp string never read by the engine and
is omitted). -/
structure Stats where
  messages_forwarded : Nat
  keywords_triggered : Nat
deriving DecidableEq, Repr

/-- A parsed `users.json`-shaped configuration record.  Field access with
Python defaults (cooldown defaulting to 2, missing destination_group,
a possibly missing `statistics` key) is modelled with `Option`.  The
`channels` and `groups` dicts are kept as the list of the name field of each entry in iteration order (tags are never used as identifiers). -/
structure FileRec where
  monitoring_active : Bool
  keywords : List (List Char)
  cooldown : Option ℚ
  destination_group : Option (List Char)
  channels : List (List Char)
  groups : List (List Char)
  statistics : Option Stats
deriving DecidableEq, Repr

/-- The record built by `create_default_config` in `monitor.py`:
monitoring inactive, keywords `["urgent", "important", "alert"]`,
cooldown 2, empty destination, no channels or groups, zeroed statistics. -/
def default_config : FileRec :=
  { monitoring_active := false
    keywords := [['u','r','g','e','n','t'], ['i','m','p','o','r','t','a','n','t'],
                 ['a','l','e','r','t']]
    cooldown := some 2
    destination_group := some []
    channels := []
    groups := []
    statistics := some ⟨0, 0⟩ }

/-- Python truthiness of an optional string: `not destination` is true for
`None` and for the empty string. -/
def falsy_str : Option (List Char) → Bool
  | none => true
  | some s => s.isEmpty

/-- The inner loop of `should_forward_message`: test each keyword in list
order against the lower-cased text, short-circuiting on the first
lower-cased keyword that occurs as a contiguous substring. -/
def keyword_scan (text_lower : List Char) : List (List Char) → Bool
  | [] => false
  | keyword :: rest =>
    if (keyword.map Char.toLower) <:+: text_lower then true
    else keyword_scan text_lower rest

/-- `should_forward_message(text, keywords)` from `monitor.py`: `False`
when the text or the keyword list is empty (Python falsiness), otherwise
scan the keywords in order against the lower-cased text. -/
def should_forward_message (text : List Char) (keywords : List (List Char)) : Bool :=
  if text.isEmpty || keywords.isEmpty then false
  else keyword_scan (text.map Char.toLower) keywords

/-- `check_cooldown(chat_id, cooldown_minutes)` from `monitor.py`, with the
global dict `last_forward_times` and the ambient clock made explicit:
`True` when the chat has no recorded forward, otherwise
`(current_time - last_time) / 60 >= cooldown_minutes`. -/
def check_cooldown (last_forward_times : ℕ → Option ℚ) (chat_id : ℕ)
    (current_time : ℚ) (cooldown_minutes : ℚ) : Bool :=
  match last_forward_times chat_id with
  | none => true
  | some last_time => decide ((current_time - last_time) / 60 ≥ cooldown_minutes)

/-- `get_entity_by_name(name)` from `monitor.py`: strip one leading `@`,
then delegate to the client lookup; every failure is already folded into
`none` by the abstract `lookup`. -/
def get_entity_by_name (lookup : List Char → Option ℕ) (name : List Char) : Option ℕ :=
  match name with
  | '@' :: rest => lookup rest
  | _ => lookup name

/-- `forward_message_to_group(message, destination_group)` from
`monitor.py`: resolve the destination, returning failure when it cannot be
found; otherwise the transport call succeeds or fails as the environment
(`transport_ok`) dictates. -/
def forward_message_to_group (lookup : List Char → Option ℕ) (transport_ok : Bool)
    (destination_group : List Char) : Bool :=
  match get_entity_by_name lookup destination_group with
  | none => false
  | some _ => transport_ok

/-- `update_statistics(forwarded, keyword_triggered)` from `monitor.py` as a
pure function on the on-disk record: read the record, initialise a missing
`statistics` object to zeros, increment the requested counters, write back. -/
def update_statistics (file : FileRec) (forwarded keyword_triggered : Bool) : FileRec :=
  let st := match file.statistics with
    | some st => st
    | none => ⟨0, 0⟩
  let st := if forwarded then { st with messages_forwarded := st.messages_forwarded + 1 }
            else st
  let st := if keyword_triggered then
              { st with keywords_triggered := st.keywords_triggered + 1 }
            else st
  { file with statistics := some st }

/-- `get_config_from_file()` from `monitor.py`: return the parsed local
record when `users.json` is readable, and the `create_default_config`
record when it is missing or unreadable (the `except` branches). -/
def get_config_from_file : Option FileRec → FileRec
  | some cfg => cfg
  | none => default_config

/-- `load_config()` from `monitor.py`: a successful GitHub fetch is used
(and becomes canonical); otherwise fall back to the local file.  The
type-fixups on `monitoring_active` and `keywords` are identities on this
already-typed record. -/
def load_config (github : Option FileRec) (file : Option FileRec) : FileRec :=
  match github with
  | some cfg => cfg
  | none => get_config_from_file file

/-- The names passed to `get_entity_by_name` during `setup_monitoring`,
in call order: none when the loaded config is inactive (the function
returns before the resolution loops), otherwise every `channels[*].name`
followed by every `groups[*].name`. -/
def setup_monitoring_calls (github : Option FileRec) (file : Option FileRec) :
    List (List Char) :=
  let config := load_config github file
  if !config.monitoring_active then []
  else config.channels ++ config.groups

/-- The `new_entities` set built by the resolution loops of
`setup_monitoring`: ids of the names that resolve; failures contribute
nothing (the `else` branch only logs). -/
def setup_monitoring_entities (lookup : List Char → Option ℕ) (config : FileRec) :
    Finset ℕ :=
  ((config.channels ++ config.groups).filterMap
    (fun nm => get_entity_by_name lookup nm)).toFinset

/-- The mutable globals of `monitor.py` together with the on-disk
`users.json` record.  `file` is the record currently on disk (the model
assumes the local file stays readable once the process runs; the
unreadable-file fallback is modelled separately via `setup_monitoring_load`
and `get_config_from_file`). -/
structure MonitorState where
  last_config_check : ℚ
  current_config : FileRec
  monitored_entities : Finset ℕ
  last_forward_times : ℕ → Option ℚ
  file : FileRec

/-- One inbound `NewMessage` event together with the environmental
nondeterminism consumed while handling it: the wall-clock time
(`time.time()` captured once at the top of the handler), the record a
GitHub config fetch would return (`none` = fetch fails or is not
configured), and whether `client.forward_messages` would succeed. -/
structure Event where
  now : ℚ
  chat_id : ℕ
  text : List Char
  github : Option FileRec
  transport_ok : Bool

/-- `setup_monitoring()` from `monitor.py`, with the outcome of the two
config sources explicit: load the config (writing a successful GitHub
record, or the freshly created default, back to disk), install it as
`current_config`, and only when it is active rebuild `monitored_entities`
from the resolution loops.  When the loaded config is inactive the
function returns early and `monitored_entities` keeps its prior value. -/
def setup_monitoring_load (lookup : List Char → Option ℕ) (github : Option FileRec)
    (file : Option FileRec) (s : MonitorState) : MonitorState :=
  let config := load_config github file
  let file' := match github with
    | some cfg => cfg
    | none => match file with
      | some f => f
      | none => default_config
  let s := { s with current_config := config, file := file' }
  if !config.monitoring_active then s
  else { s with monitored_entities := setup_monitoring_entities lookup config }

/-- `setup_monitoring` in the running model, where the local file is the
readable on-disk record carried in the state. -/
def setup_monitoring (lookup : List Char → Option ℕ) (github : Option FileRec)
    (s : MonitorState) : MonitorState :=
  setup_monitoring_load lookup github (some s.file) s

/-- The staleness check at the top of `handle_new_message`: when more than
30 seconds have passed since `last_config_check`, run `setup_monitoring`
and stamp `last_config_check` with the current time. -/
def refresh_config (lookup : List Char → Option ℕ) (s : MonitorState) (e : Event) :
    MonitorState :=
  if e.now - s.last_config_check > 30 then
    { setup_monitoring lookup e.github s with last_config_check := e.now }
  else s

/-- Number of `load_config()` calls `handle_new_message` makes for one
event: exactly one, inside `setup_monitoring`, when the staleness check
fires; zero otherwise. -/
def handle_new_message_loads (s : MonitorState) (e : Event) : ℕ :=
  if e.now - s.last_config_check > 30 then 1 else 0

/-- The decision pipeline of `handle_new_message` after the staleness
check, matching the guard sequence of `monitor.py` lines 258-288:
monitoring flag, membership of the chat in `monitored_entities`, non-empty
text, keyword filter, cooldown, configured destination; then the
triggered-counter update, the dispatch, and on success the cooldown-map
write followed by the forwarded-counter update. -/
def pipeline (lookup : List Char → Option ℕ) (s : MonitorState) (e : Event) :
    MonitorState :=
  if !s.current_config.monitoring_active then s
  else if !decide (e.chat_id ∈ s.monitored_entities) then s
  else if e.text.isEmpty then s
  else if !should_forward_message e.text s.current_config.keywords then s
  else if !check_cooldown s.last_forward_times e.chat_id e.now
            (s.current_config.cooldown.getD 2) then s
  else if falsy_str s.current_config.destination_group then s
  else
    let s1 := { s with file := update_statistics s.file false true }
    let success := forward_message_to_group lookup e.transport_ok
      (s.current_config.destination_group.getD [])
    if success then
      let s2 := { s1 with last_forward_times :=
        fun c => if c = e.chat_id then some e.now else s1.last_forward_times c }
      { s2 with file := update_statistics s2.file true false }
    else s1

/-- `handle_new_message(event)` from `monitor.py`: the staleness-driven
refresh followed by the decision pipeline, both using the single
`current_time` captured at entry. -/
def handle_new_message (lookup : List Char → Option ℕ) (s : MonitorState) (e : Event) :
    MonitorState :=
  pipeline lookup (refresh_config lookup s e) e

/-- Process a list of events in arrival order. -/
def run (lookup : List Char → Option ℕ) (s : MonitorState) : List Event → MonitorState
  | [] => s
  | e :: es => run lookup (handle_new_message lookup s e) es

/-- An event reaches the dispatch stage of the pipeline (all six guards
pass), evaluated at the state the pipeline actually sees. -/
def step_triggered (s : MonitorState) (e : Event) : Bool :=
  s.current_config.monitoring_active &&
  decide (e.chat_id ∈ s.monitored_entities) &&
  !e.text.isEmpty &&
  should_forward_message e.text s.current_config.keywords &&
  check_cooldown s.last_forward_times e.chat_id e.now
    (s.current_config.cooldown.getD 2) &&
  !falsy_str s.current_config.destination_group

/-- An event is stopped by the cooldown gate: it passes the four earlier
guards and `check_cooldown` returns false. -/
def cooldown_blocked (s : MonitorState) (e : Event) : Bool :=
  s.current_config.monitoring_active &&
  decide (e.chat_id ∈ s.monitored_entities) &&
  !e.text.isEmpty &&
  should_forward_message e.text s.current_config.keywords &&
  !check_cooldown s.last_forward_times e.chat_id e.now
    (s.current_config.cooldown.getD 2)

/-- An event passes the cooldown gate but finds no configured destination
(`destination_group` missing or empty). -/
def destination_blocked (s : MonitorState) (e : Event) : Bool :=
  s.current_config.monitoring_active &&
  decide (e.chat_id ∈ s.monitored_entities) &&
  !e.text.isEmpty &&
  should_forward_message e.text s.current_config.keywords &&
  check_cooldown s.last_forward_times e.chat_id e.now
    (s.current_config.cooldown.getD 2) &&
  falsy_str s.current_config.destination_group

/-- The dispatch of one event succeeds. -/
def dispatch_ok (lookup : List Char → Option ℕ) (s : MonitorState) (e : Event) : Bool :=
  forward_message_to_group lookup e.transport_ok
    (s.current_config.destination_group.getD [])

/-- The event reaches dispatch and the dispatch succeeds. -/
def step_forwarded (lookup : List Char → Option ℕ) (s : MonitorState) (e : Event) :
    Bool :=
  step_triggered s e && dispatch_ok lookup s e

/-- `step_triggered` evaluated at the post-refresh state, i.e. whether one
whole `handle_new_message` call reaches the dispatch stage. -/
def handle_triggered (lookup : List Char → Option ℕ) (s : MonitorState) (e : Event) :
    Bool :=
  step_triggered (refresh_config lookup s e) e

/-- `step_forwarded` evaluated at the post-refresh state. -/
def handle_forwarded (lookup : List Char → Option ℕ) (s : MonitorState) (e : Event) :
    Bool :=
  step_forwarded lookup (refresh_config lookup s e) e

/-- Events of a trace that reach the dispatch stage, counted at the states
they are actually handled in. -/
def count_triggered (lookup : List Char → Option ℕ) (s : MonitorState) :
    List Event → ℕ
  | [] => 0
  | e :: es =>
    (if handle_triggered lookup s e then 1 else 0) +
      count_triggered lookup (handle_new_message lookup s e) es

/-- Events of a trace whose dispatch succeeds. -/
def count_forwarded (lookup : List Char → Option ℕ) (s : MonitorState) :
    List Event → ℕ
  | [] => 0
  | e :: es =>
    (if handle_forwarded lookup s e then 1 else 0) +
      count_forwarded lookup (handle_new_message lookup s e) es

/-- The statistics record on disk, defaulting to zeros when the
`statistics` key is absent (as `update_statistics` would initialise it). -/
def get_stats (f : FileRec) : Stats :=
  f.statistics.getD ⟨0, 0⟩

/-- Complete description of one pipeline step: a successful dispatch
updates both counters and the cooldown map, a reached-but-failed dispatch
updates only the triggered counter, and any guard failure leaves the
state untouched. -/
theorem pipeline_spec (lookup : List Char → Option ℕ) (s : MonitorState) (e : Event) :
    pipeline lookup s e =
      if step_forwarded lookup s e then
        { s with
          file := update_statistics (update_statistics s.file false true) true false,
          last_forward_times :=
            fun c => if c = e.chat_id then some e.now else s.last_forward_times c }
      else if step_triggered s e then
        { s with file := update_statistics s.file false true }
      else s := by
  unfold pipeline step_forwarded step_triggered dispatch_ok
  by_cases h1 : s.current_config.monitoring_active <;>
  by_cases h2 : e.chat_id ∈ s.monitored_entities <;>
  by_cases h3 : e.text = [] <;>
  by_cases h4 : should_forward_message e.text s.current_config.keywords <;>
  by_cases h5 : check_cooldown s.last_forward_times e.chat_id e.now
      (s.current_config.cooldown.getD 2) <;>
  by_cases h6 : falsy_str s.current_config.destination_group <;>
  by_cases h7 : forward_message_to_group lookup e.transport_ok
      (s.current_config.destination_group.getD []) <;>
  simp_all [List.isEmpty_iff]

/-- The pipeline never touches the refresh timestamp, the installed
config, or the monitored set. -/
theorem pipeline_frame (lookup : List Char → Option ℕ) (s : MonitorState) (e : Event) :
    (pipeline lookup s e).last_config_check = s.last_config_check ∧
    (pipeline lookup s e).current_config = s.current_config ∧
    (pipeline lookup s e).monitored_entities = s.monitored_entities := by
  rw [pipeline_spec]
  by_cases h1 : step_forwarded lookup s e <;> by_cases h2 : step_triggered s e <;>
    simp [h1, h2]

/-- Statistics bookkeeping of one pipeline step, starting from a present
statistics record. -/
theorem pipeline_stats (lookup : List Char → Option ℕ) (s : MonitorState) (e : Event)
    (st : Stats) (h : s.file.statistics = some st) :
    (pipeline lookup s e).file.statistics =
      some ⟨st.messages_forwarded + (if step_forwarded lookup s e then 1 else 0),
            st.keywords_triggered + (if step_triggered s e then 1 else 0)⟩ := by
  rw [pipeline_spec]
  have hft : ∀ b, step_forwarded lookup s e = b → b = true → step_triggered s e = true := by
    intro b hb htrue
    subst hb
    unfold step_forwarded at htrue
    exact (Bool.and_eq_true _ _).mp htrue |>.1
  by_cases h1 : step_forwarded lookup s e
  · have h2 : step_triggered s e = true := hft _ rfl h1
    simp [h1, h2, update_statistics, h]
  · by_cases h2 : step_triggered s e
    · simp [h1, h2, update_statistics, h]
    · simp [h1, h2, h]

/-- A cooldown-map write happens exactly on a successful dispatch, and
then records the current time for the chat of the event. -/
theorem pipeline_map (lookup : List Char → Option ℕ) (s : MonitorState) (e : Event) :
    (pipeline lookup s e).last_forward_times =
      if step_forwarded lookup s e then
        (fun c => if c = e.chat_id then some e.now else s.last_forward_times c)
      else s.last_forward_times := by
  rw [pipeline_spec]
  by_cases h1 : step_forwarded lookup s e <;> by_cases h2 : step_triggered s e <;>
    simp [h1, h2]

/-- With no GitHub record, `setup_monitoring` leaves the on-disk file, the
cooldown map and the refresh timestamp alone, and installs the on-disk
record as the current config. -/
theorem setup_monitoring_none (lookup : List Char → Option ℕ) (s : MonitorState) :
    (setup_monitoring lookup none s).file = s.file ∧
    (setup_monitoring lookup none s).last_forward_times = s.last_forward_times ∧
    (setup_monitoring lookup none s).last_config_check = s.last_config_check ∧
    (setup_monitoring lookup none s).current_config = s.file := by
  unfold setup_monitoring setup_monitoring_load load_config get_config_from_file
  by_cases h : s.file.monitoring_active <;> simp [h]

/-- With no GitHub record, the staleness-driven refresh preserves the
on-disk file (hence the statistics) and the cooldown map. -/
theorem refresh_config_none (lookup : List Char → Option ℕ) (s : MonitorState)
    (e : Event) (hg : e.github = none) :
    (refresh_config lookup s e).file = s.file ∧
    (refresh_config lookup s e).last_forward_times = s.last_forward_times := by
  unfold refresh_config
  rw [hg]
  by_cases h : e.now - s.last_config_check > 30 <;>
    simp [h, (setup_monitoring_none lookup s).1, (setup_monitoring_none lookup s).2.1]

/-- Statistics bookkeeping of one whole `handle_new_message` call when no
GitHub record is injected by a refresh. -/
theorem handle_stats (lookup : List Char → Option ℕ) (s : MonitorState) (e : Event)
    (st : Stats) (h : s.file.statistics = some st) (hg : e.github = none) :
    (handle_new_message lookup s e).file.statistics =
      some ⟨st.messages_forwarded + (if handle_forwarded lookup s e then 1 else 0),
            st.keywords_triggered + (if handle_triggered lookup s e then 1 else 0)⟩ := by
  unfold handle_new_message handle_forwarded handle_triggered
  have hfile := (refresh_config_none lookup s e hg).1
  exact pipeline_stats lookup (refresh_config lookup s e) e st (by rw [hfile, h])

/-- Trace-level statistics bookkeeping: over any event list carrying no
GitHub record, the two counters grow by exactly the number of
dispatch-reaching events and the number of successful forwards. -/
theorem run_stats (lookup : List Char → Option ℕ) :
    ∀ (es : List Event) (s : MonitorState) (st : Stats),
      s.file.statistics = some st → (∀ e ∈ es, e.github = none) →
      (run lookup s es).file.statistics =
        some ⟨st.messages_forwarded + count_forwarded lookup s es,
              st.keywords_triggered + count_triggered lookup s es⟩ := by
  intro es
  induction es with
  | nil => intro s st h _; simpa [run, count_forwarded, count_triggered] using h
  | cons e es ih =>
    intro s st h hg
    have hge : e.github = none := hg e (List.mem_cons_self e es)
    have hstep := handle_stats lookup s e st h hge
    have hrest := ih (handle_new_message lookup s e) _ hstep
      (fun e' he' => hg e' (List.mem_cons_of_mem e he'))
    simp only [run, count_forwarded, count_triggered, hrest]
    simp [Nat.add_assoc]

/-- The keyword loop finds a match exactly when some keyword of the list,
lower-cased, is an infix of the (already lower-cased) text. -/
theorem keyword_scan_iff (text_lower : List Char) :
    ∀ keywords : List (List Char),
      keyword_scan text_lower keywords = true ↔
        ∃ k ∈ keywords, (k.map Char.toLower) <:+: text_lower := by
  intro keywords
  induction keywords with
  | nil => simp [keyword_scan]
  | cons k ks ih =>
    unfold keyword_scan
    by_cases h : (k.map Char.toLower) <:+: text_lower <;> simp [h, ih]

/-- C1 (amended): the message filter returns false whenever the text or
the keyword list is empty; on non-empty inputs it returns true exactly
when some keyword, lower-cased, is a contiguous substring of the
lower-cased text (OR semantics; order is extensionally irrelevant). -/
theorem C1_message_filter (text : List Char) (keywords : List (List Char)) :
    should_forward_message text keywords = true ↔
      text ≠ [] ∧ keywords ≠ [] ∧
        ∃ k ∈ keywords, (k.map Char.toLower) <:+: (text.map Char.toLower) := by
  unfold should_forward_message
  by_cases ht : text = []
  · simp [ht]
  · by_cases hk : keywords = []
    · simp [ht, hk]
    · simp [ht, hk, keyword_scan_iff, List.isEmpty_iff]

/-- C1 counterexample: at `text = ""` and `keywords = [""]` the code
returns false although the lower-cased keyword `""` is a substring of the
lower-cased text, so the claimed unconditional equivalence fails. -/
theorem C1_counterexample :
    ¬ (should_forward_message [] [[]] = true ↔
        ∃ k ∈ ([[]] : List (List Char)),
          (k.map Char.toLower) <:+: (([] : List Char).map Char.toLower)) := by
  decide

/-- C2 (amended): the cooldown check returns true when the source has no
recorded last-forward time; otherwise it returns true exactly when
`(now - last_forward_time) / 60 ≥ cooldown_minutes`; with
`cooldown_minutes = 0` it returns true whenever the current time is not
earlier than the recorded time. -/
theorem C2_check_cooldown (m : ℕ → Option ℚ) (chat_id : ℕ) (now cd : ℚ) :
    (m chat_id = none → check_cooldown m chat_id now cd = true) ∧
    (∀ t, m chat_id = some t →
      (check_cooldown m chat_id now cd = true ↔ (now - t) / 60 ≥ cd)) ∧
    (∀ t, m chat_id = some t → t ≤ now → cd = 0 →
      check_cooldown m chat_id now cd = true) := by
  refine ⟨fun h => by simp [check_cooldown, h], fun t h => by simp [check_cooldown, h],
    fun t h hle hcd => ?_⟩
  simp only [check_cooldown, h, hcd, decide_eq_true_iff]
  have : (0 : ℚ) ≤ now - t := by linarith
  positivity

/-- C2 witness: a source with a forward recorded at time 900, queried at
time 1000 with cooldown 0, is allowed. -/
theorem C2_check_cooldown_witness :
    check_cooldown (fun c => if c = 5 then some 900 else none) 5 1000 0 = true :=
  (C2_check_cooldown (fun c => if c = 5 then some 900 else none) 5 1000 0).2.2
    900 rfl (by norm_num) rfl

/-- C2 counterexample: with a recorded last-forward time of 60 and current
time 0 (clock earlier than the recorded forward), cooldown 0 yields
`false`, refuting "with cooldown_minutes = 0 it always returns true". -/
theorem C2_counterexample :
    check_cooldown (fun c => if c = 0 then some 60 else none) 0 0 0 = false := by
  norm_num [check_cooldown]

/-- C7: for an active configuration, the rebuilt monitored set consists of
exactly the ids of the resolvable channel and group names (unresolvable
names are omitted, with no abort); in particular with two resolvable
channel names and one unresolvable group name the set is exactly the two
resolved ids. -/
theorem C7_monitored_set :
    (∀ (lookup : List Char → Option ℕ) (cfg : FileRec) (s : MonitorState),
      cfg.monitoring_active = true →
      (setup_monitoring lookup (some cfg) s).monitored_entities =
        setup_monitoring_entities lookup cfg ∧
      ∀ i, i ∈ setup_monitoring_entities lookup cfg ↔
        ∃ nm ∈ cfg.channels ++ cfg.groups, get_entity_by_name lookup nm = some i) ∧
    (∀ (lookup : List Char → Option ℕ) (cfg : FileRec) (s : MonitorState)
       (n1 n2 n3 : List Char) (i1 i2 : ℕ),
      cfg.monitoring_active = true →
      cfg.channels = [n1, n2] → cfg.groups = [n3] →
      get_entity_by_name lookup n1 = some i1 →
      get_entity_by_name lookup n2 = some i2 →
      get_entity_by_name lookup n3 = none →
      (setup_monitoring lookup (some cfg) s).monitored_entities = ({i1, i2} : Finset ℕ)) := by
  have hmain : ∀ (lookup : List Char → Option ℕ) (cfg : FileRec) (s : MonitorState),
      cfg.monitoring_active = true →
      (setup_monitoring lookup (some cfg) s).monitored_entities =
        setup_monitoring_entities lookup cfg := by
    intro lookup cfg s h
    unfold setup_monitoring setup_monitoring_load load_config
    simp [h]
  constructor
  · intro lookup cfg s h
    refine ⟨hmain lookup cfg s h, fun i => ?_⟩
    unfold setup_monitoring_entities
    simp [List.mem_filterMap]
    constructor
    · rintro (⟨nm, hnm, hres⟩ | ⟨nm, hnm, hres⟩)
      · exact ⟨nm, Or.inl hnm, hres⟩
      · exact ⟨nm, Or.inr hnm, hres⟩
    · rintro ⟨nm, hnm | hnm, hres⟩
      · exact Or.inl ⟨nm, hnm, hres⟩
      · exact Or.inr ⟨nm, hnm, hres⟩
  · intro lookup cfg s n1 n2 n3 i1 i2 h hc hg h1 h2 h3
    rw [hmain lookup cfg s h]
    unfold setup_monitoring_entities
    rw [hc, hg]
    simp [List.filterMap, h1, h2, h3]

/-- C7 witness: channels `["a", "b"]` resolving to 1 and 2, group `["c"]`
unresolvable, active config: the monitored set is `{1, 2}`. -/
theorem C7_monitored_set_witness :
    (setup_monitoring
      (fun nm => if nm = ['a'] then some 1 else if nm = ['b'] then some 2 else none)
      (some { monitoring_active := true, keywords := [], cooldown := none,
              destination_group := none, channels := [['a'], ['b']], groups := [['c']],
              statistics := none })
      { last_config_check := 0, current_config := default_config,
        monitored_entities := ∅, last_forward_times := fun _ => none,
        file := default_config }).monitored_entities = ({1, 2} : Finset ℕ) :=
  C7_monitored_set.2
    (fun nm => if nm = ['a'] then some 1 else if nm = ['b'] then some 2 else none)
    _ _ ['a'] ['b'] ['c'] 1 2 rfl rfl rfl (by decide) (by decide) (by decide)

/-- A concrete active configuration: keyword "urgent", cooldown 2 minutes,
destination "@ops". -/
def cfg_active : FileRec :=
  { monitoring_active := true
    keywords := [['u','r','g','e','n','t']]
    cooldown := some 2
    destination_group := some ['@','o','p','s']
    channels := []
    groups := []
    statistics := some ⟨0, 0⟩ }

/-- The same configuration with monitoring switched off. -/
def cfg_inactive : FileRec := { cfg_active with monitoring_active := false }

/-- A concrete resolver: only the name "ops" resolves (to id 9). -/
def lookup_ops : List Char → Option ℕ := fun nm => if nm = ['o','p','s'] then some 9 else none

/-- A concrete engine state watching chat 5 under `cfg_active`. -/
def state_watch : MonitorState :=
  { last_config_check := 990
    current_config := cfg_active
    monitored_entities := {5}
    last_forward_times := fun _ => none
    file := cfg_active }

/-- A concrete matching event in chat 5 at time 1000. -/
def ev_urgent1 : Event :=
  { now := 1000, chat_id := 5, text := ['u','r','g','e','n','t',' ','x'],
    github := none, transport_ok := true }

/-- C6 (amended): when the loaded configuration has
`monitoring_active = false`, a refresh leaves the monitored set unchanged
(it is not rebuilt and in particular is not emptied), makes no
entity-resolution calls, installs the loaded record as current config, and
while an inactive config is current every incoming event is discarded at
the monitoring-enabled gate with no state change. -/
theorem C6_inactive_refresh (lookup : List Char → Option ℕ) (cfg : FileRec)
    (s s' : MonitorState) (e : Event) (h : cfg.monitoring_active = false) :
    (setup_monitoring lookup (some cfg) s).monitored_entities = s.monitored_entities ∧
    (setup_monitoring lookup (some cfg) s).current_config = cfg ∧
    setup_monitoring_calls (some cfg) (some s.file) = [] ∧
    (s'.current_config.monitoring_active = false → pipeline lookup s' e = s') := by
  refine ⟨?_, ?_, ?_, fun h' => ?_⟩
  · unfold setup_monitoring setup_monitoring_load load_config
    simp [h]
  · unfold setup_monitoring setup_monitoring_load load_config
    simp [h]
  · unfold setup_monitoring_calls load_config
    simp [h]
  · rw [pipeline_spec]
    simp [step_forwarded, step_triggered, h']

/-- C6 witness: refreshing `state_watch` with the inactive config makes no
resolution calls and keeps the monitored set; a subsequent event under the
inactive config leaves the state untouched. -/
theorem C6_inactive_refresh_witness :
    (setup_monitoring lookup_ops (some cfg_inactive) state_watch).monitored_entities =
      state_watch.monitored_entities ∧
    setup_monitoring_calls (some cfg_inactive) (some state_watch.file) = [] ∧
    pipeline lookup_ops { state_watch with current_config := cfg_inactive } ev_urgent1 =
      { state_watch with current_config := cfg_inactive } := by
  obtain ⟨h1, _, h3, h4⟩ := C6_inactive_refresh lookup_ops cfg_inactive state_watch
    { state_watch with current_config := cfg_inactive } ev_urgent1 rfl
  exact ⟨h1, h3, h4 rfl⟩

/-- C6 counterexample: a refresh that loads an inactive config over a
state whose monitored set is `{42}` leaves the monitored set at `{42}`,
not the empty set — the refresh does not "produce an empty monitored
set". -/
theorem C6_counterexample :
    cfg_inactive.monitoring_active = false ∧
    (setup_monitoring lookup_ops (some cfg_inactive)
      { state_watch with monitored_entities := {42} }).monitored_entities =
        ({42} : Finset ℕ) ∧
    ({42} : Finset ℕ) ≠ (∅ : Finset ℕ) := by
  refine ⟨rfl, rfl, by decide⟩

/-- The config installed by `setup_monitoring` is always the record
`load_config` returned, whatever the active flag. -/
theorem setup_monitoring_current (lookup : List Char → Option ℕ)
    (github : Option FileRec) (s : MonitorState) :
    (setup_monitoring lookup github s).current_config =
      load_config github (some s.file) := by
  unfold setup_monitoring setup_monitoring_load
  by_cases h : (load_config github (some s.file)).monitoring_active <;> simp [h]

/-- C9 (amended): a successful remote fetch is canonical; when the remote
fails the local file record is used; when both fail the built-in default
record (monitoring inactive) is loaded and installed as the current
config — the previously cached configuration is replaced, on every such
total failure, not only on first load. -/
theorem C9_load_fallback (lookup : List Char → Option ℕ) (g f : FileRec)
    (s : MonitorState) :
    load_config (some g) (some f) = g ∧
    load_config none (some f) = f ∧
    load_config none none = default_config ∧
    default_config.monitoring_active = false ∧
    (setup_monitoring_load lookup none none s).current_config = default_config ∧
    (setup_monitoring_load lookup none none s).file = default_config := by
  exact ⟨rfl, rfl, rfl, rfl, rfl, rfl⟩

/-- C9 counterexample: with `cfg_active` cached as the current config and
both config sources failing, the refresh installs the built-in default
record, not the previously cached one. -/
theorem C9_counterexample :
    state_watch.current_config = cfg_active ∧
    (setup_monitoring_load lookup_ops none none state_watch).current_config =
      default_config ∧
    default_config ≠ cfg_active := by
  refine ⟨rfl, rfl, fun h => ?_⟩
  have := congrArg FileRec.monitoring_active h
  simp [default_config, cfg_active] at this

/-- A second matching event in chat 5, fifteen seconds after the first. -/
def ev_urgent2 : Event :=
  { now := 1015, chat_id := 5, text := ['u','r','g','e','n','t'],
    github := none, transport_ok := true }

/-- C8: a refresh (exactly one external config load) is performed on an
event exactly when more than 30 seconds have elapsed since
`last_config_check`; a refresh stamps `last_config_check` with the current
time and installs the loaded record; and two events no more than 30
seconds apart perform at most one load in total. -/
theorem C8_refresh_staleness (lookup : List Char → Option ℕ) (s : MonitorState)
    (e1 e2 : Event) :
    (handle_new_message_loads s e1 = 1 ↔ e1.now - s.last_config_check > 30) ∧
    ((refresh_config lookup s e1).last_config_check =
      if e1.now - s.last_config_check > 30 then e1.now else s.last_config_check) ∧
    ((refresh_config lookup s e1).current_config =
      if e1.now - s.last_config_check > 30 then load_config e1.github (some s.file)
      else s.current_config) ∧
    (e2.now - e1.now ≤ 30 →
      handle_new_message_loads s e1 +
        handle_new_message_loads (handle_new_message lookup s e1) e2 ≤ 1) := by
  refine ⟨?_, ?_, ?_, fun hle => ?_⟩
  · unfold handle_new_message_loads
    by_cases h : e1.now - s.last_config_check > 30 <;> simp [h]
  · unfold refresh_config
    by_cases h : e1.now - s.last_config_check > 30 <;> simp [h]
  · unfold refresh_config
    by_cases h : e1.now - s.last_config_check > 30 <;>
      simp [h, setup_monitoring_current]
  · have hlast : (handle_new_message lookup s e1).last_config_check =
        (refresh_config lookup s e1).last_config_check := by
      unfold handle_new_message
      exact (pipeline_frame lookup (refresh_config lookup s e1) e1).1
    unfold handle_new_message_loads
    by_cases h1 : e1.now - s.last_config_check > 30
    · have h2 : ¬ (e2.now - (handle_new_message lookup s e1).last_config_check > 30) := by
        rw [hlast]
        unfold refresh_config
        simp only [h1, if_true]
        simp only [gt_iff_lt, not_lt]
        linarith
      simp [h1, h2]
    · have : (if e2.now - (handle_new_message lookup s e1).last_config_check > 30
          then (1 : ℕ) else 0) ≤ 1 := by
        split <;> norm_num
      simpa [h1] using this

/-- C8 witness: `ev_urgent1` then `ev_urgent2` arrive 15 seconds apart,
so the pair performs at most one config load. -/
theorem C8_refresh_staleness_witness :
    handle_new_message_loads state_watch ev_urgent1 +
      handle_new_message_loads (handle_new_message lookup_ops state_watch ev_urgent1)
        ev_urgent2 ≤ 1 :=
  (C8_refresh_staleness lookup_ops state_watch ev_urgent1 ev_urgent2).2.2.2
    (by norm_num [ev_urgent1, ev_urgent2])

/-- C5: an event stopped by the cooldown gate leaves the whole state
unchanged (statistics and cooldown map included), and the cooldown map is
written only by a successful dispatch, which records the current time for
the chat of the event. -/
theorem C5_cooldown_frame (lookup : List Char → Option ℕ) (s : MonitorState)
    (e : Event) :
    (cooldown_blocked s e = true → pipeline lookup s e = s) ∧
    ((pipeline lookup s e).last_forward_times =
      if step_forwarded lookup s e then
        (fun c => if c = e.chat_id then some e.now else s.last_forward_times c)
      else s.last_forward_times) := by
  refine ⟨fun h => ?_, pipeline_map lookup s e⟩
  simp only [cooldown_blocked, Bool.and_eq_true, Bool.not_eq_true'] at h
  have hcool := h.2
  have htrig : step_triggered s e = false := by
    simp [step_triggered, hcool]
  have hfwd : step_forwarded lookup s e = false := by
    simp [step_forwarded, htrig]
  rw [pipeline_spec]
  simp [htrig, hfwd]

/-- The state of `state_watch` fifteen seconds after a successful forward
from chat 5 at time 1000. -/
def state_cooled : MonitorState :=
  { state_watch with last_forward_times := fun c => if c = 5 then some 1000 else none }

/-- C5 witness: `ev_urgent2` (chat 5, time 1015, matching text) is
cooldown-blocked in `state_cooled` (only 15 s of a 2-minute cooldown have
passed) and the pipeline leaves the state untouched. -/
theorem C5_cooldown_frame_witness :
    pipeline lookup_ops state_cooled ev_urgent2 = state_cooled := by
  have hcool : check_cooldown state_cooled.last_forward_times ev_urgent2.chat_id
      ev_urgent2.now (state_cooled.current_config.cooldown.getD 2) = false := by
    have h5 : state_cooled.last_forward_times ev_urgent2.chat_id = some 1000 := rfl
    simp only [check_cooldown, h5, decide_eq_false_iff_not]
    norm_num [ev_urgent2, state_cooled, state_watch, cfg_active]
  refine (C5_cooldown_frame lookup_ops state_cooled ev_urgent2).1 ?_
  unfold cooldown_blocked
  rw [hcool]
  decide

/-- C10: an event that passes the membership gate, the keyword filter and
the cooldown check but finds no configured destination (`destination_group`
missing or empty) is discarded before any statistics update: the state is
unchanged, the dispatch stage is never reached, and no forward happens. -/
theorem C10_no_destination (lookup : List Char → Option ℕ) (s : MonitorState)
    (e : Event) (h : destination_blocked s e = true) :
    pipeline lookup s e = s ∧ step_triggered s e = false ∧
    step_forwarded lookup s e = false := by
  simp only [destination_blocked, Bool.and_eq_true] at h
  have hdest := h.2
  have htrig : step_triggered s e = false := by
    simp [step_triggered, hdest]
  have hfwd : step_forwarded lookup s e = false := by
    simp [step_forwarded, htrig]
  refine ⟨?_, htrig, hfwd⟩
  rw [pipeline_spec]
  simp [htrig, hfwd]

/-- `state_watch` with an empty destination configured. -/
def state_nodest : MonitorState :=
  { state_watch with current_config := { cfg_active with destination_group := some [] } }

/-- C10 witness: a matching, cooldown-eligible event in chat 5 under an
empty destination leaves the state unchanged and never reaches dispatch. -/
theorem C10_no_destination_witness :
    pipeline lookup_ops state_nodest ev_urgent1 = state_nodest ∧
    step_triggered state_nodest ev_urgent1 = false ∧
    step_forwarded lookup_ops state_nodest ev_urgent1 = false :=
  C10_no_destination lookup_ops state_nodest ev_urgent1 (by decide)

/-- A successful forward presupposes reaching the dispatch stage. -/
theorem handle_forwarded_triggered (lookup : List Char → Option ℕ) (s : MonitorState)
    (e : Event) (h : handle_forwarded lookup s e = true) :
    handle_triggered lookup s e = true := by
  unfold handle_forwarded step_forwarded at h
  exact ((Bool.and_eq_true _ _).mp h).1

/-- Over any trace, successful forwards never outnumber dispatch-stage
events. -/
theorem count_forwarded_le (lookup : List Char → Option ℕ) :
    ∀ (es : List Event) (s : MonitorState),
      count_forwarded lookup s es ≤ count_triggered lookup s es := by
  intro es
  induction es with
  | nil => intro s; simp [count_forwarded, count_triggered]
  | cons e es ih =>
    intro s
    unfold count_forwarded count_triggered
    have hstep : (if handle_forwarded lookup s e then (1 : ℕ) else 0) ≤
        (if handle_triggered lookup s e then (1 : ℕ) else 0) := by
      by_cases hf : handle_forwarded lookup s e = true
      · simp [hf, handle_forwarded_triggered lookup s e hf]
      · simp [hf]
    exact Nat.add_le_add hstep (ih (handle_new_message lookup s e))

/-- C3: starting from a statistics record with
`messages_forwarded ≤ keywords_triggered`, after any sequence of message
events (none of which injects an external GitHub record, what the spec calls an
"explicit external reset") the statistics record is still present, still
satisfies `messages_forwarded ≤ keywords_triggered`, and both counters are
at least their starting values. -/
theorem C3_stats_invariant (lookup : List Char → Option ℕ) (s : MonitorState)
    (es : List Event) (st : Stats)
    (h : s.file.statistics = some st)
    (hinv : st.messages_forwarded ≤ st.keywords_triggered)
    (hg : ∀ e ∈ es, e.github = none) :
    (run lookup s es).file.statistics = some (get_stats (run lookup s es).file) ∧
    (get_stats (run lookup s es).file).messages_forwarded ≤
      (get_stats (run lookup s es).file).keywords_triggered ∧
    st.messages_forwarded ≤ (get_stats (run lookup s es).file).messages_forwarded ∧
    st.keywords_triggered ≤ (get_stats (run lookup s es).file).keywords_triggered := by
  have hrun := run_stats lookup es s st h hg
  have hcnt := count_forwarded_le lookup es s
  simp only [get_stats, hrun, Option.getD_some]
  refine ⟨trivial, ?_, ?_, ?_⟩
  · exact Nat.add_le_add hinv hcnt
  · exact Nat.le_add_right _ _
  · exact Nat.le_add_right _ _

/-- C3 witness: one matching event on `state_watch` (counters 0/0)
preserves the invariant. -/
theorem C3_stats_invariant_witness :
    (get_stats (run lookup_ops state_watch [ev_urgent1]).file).messages_forwarded ≤
      (get_stats (run lookup_ops state_watch [ev_urgent1]).file).keywords_triggered :=
  (C3_stats_invariant lookup_ops state_watch [ev_urgent1] ⟨0, 0⟩ rfl (by norm_num)
    (by simp [ev_urgent1])).2.1

/-- C4 (amended): per event, `keywords_triggered` grows by one exactly
when the event reaches the dispatch stage — so a failed dispatch still
counts a trigger — and `messages_forwarded` grows by one exactly when the
dispatch succeeds; over a trace the counters grow by exactly the number N
of dispatch-reaching events and the number K ≤ N of successful forwards.
(The events counted are those passing every gate — membership, text,
filter, cooldown and destination — not all filter-matching events.) -/
theorem C4_trigger_counts :
    (∀ (lookup : List Char → Option ℕ) (s : MonitorState) (e : Event) (st : Stats),
      s.file.statistics = some st → e.github = none →
      (handle_new_message lookup s e).file.statistics =
        some ⟨st.messages_forwarded + (if handle_forwarded lookup s e then 1 else 0),
              st.keywords_triggered + (if handle_triggered lookup s e then 1 else 0)⟩ ∧
      (handle_forwarded lookup s e = true → handle_triggered lookup s e = true)) ∧
    (∀ (lookup : List Char → Option ℕ) (s : MonitorState) (es : List Event) (st : Stats),
      s.file.statistics = some st → (∀ e ∈ es, e.github = none) →
      (run lookup s es).file.statistics =
        some ⟨st.messages_forwarded + count_forwarded lookup s es,
              st.keywords_triggered + count_triggered lookup s es⟩ ∧
      count_forwarded lookup s es ≤ count_triggered lookup s es) := by
  constructor
  · intro lookup s e st h hg
    exact ⟨handle_stats lookup s e st h hg, handle_forwarded_triggered lookup s e⟩
  · intro lookup s es st h hg
    exact ⟨run_stats lookup es s st h hg, count_forwarded_le lookup es s⟩

/-- C4 witness: one matching, successfully forwarded event on
`state_watch` adds the per-trace counts to the 0/0 counters. -/
theorem C4_trigger_counts_witness :
    (run lookup_ops state_watch [ev_urgent1]).file.statistics =
      some ⟨0 + count_forwarded lookup_ops state_watch [ev_urgent1],
            0 + count_triggered lookup_ops state_watch [ev_urgent1]⟩ :=
  (C4_trigger_counts.2 lookup_ops state_watch [ev_urgent1] ⟨0, 0⟩ rfl
    (by simp [ev_urgent1])).1

/-- C4 counterexample: two filter-matching events in monitored chat 5
(`ev_urgent1` forwarded successfully, `ev_urgent2` fifteen seconds later
blocked by the 2-minute cooldown) leave the counters at 1/1: over N = 2
filter-matching events with K = 1 successful forward, `keywords_triggered`
grew by 1, not by N = 2, because cooldown-blocked events are discarded
before the statistics update. -/
theorem C4_counterexample :
    should_forward_message ev_urgent1.text cfg_active.keywords = true ∧
    should_forward_message ev_urgent2.text cfg_active.keywords = true ∧
    handle_forwarded lookup_ops state_watch ev_urgent1 = true ∧
    handle_forwarded lookup_ops (handle_new_message lookup_ops state_watch ev_urgent1)
      ev_urgent2 = false ∧
    (handle_new_message lookup_ops (handle_new_message lookup_ops state_watch ev_urgent1)
      ev_urgent2).file.statistics = some ⟨1, 1⟩ ∧
    (⟨1, 1⟩ : Stats) ≠ (⟨1, 2⟩ : Stats) := by
  have hr1 : refresh_config lookup_ops state_watch ev_urgent1 = state_watch := by
    unfold refresh_config
    have : ¬ (ev_urgent1.now - state_watch.last_config_check > 30) := by
      norm_num [ev_urgent1, state_watch]
    simp [this]
  have hf1 : step_forwarded lookup_ops state_watch ev_urgent1 = true := by decide
  have ht1 : step_triggered state_watch ev_urgent1 = true := by decide
  have hhf1 : handle_forwarded lookup_ops state_watch ev_urgent1 = true := by
    unfold handle_forwarded
    rw [hr1]
    exact hf1
  have hht1 : handle_triggered lookup_ops state_watch ev_urgent1 = true := by
    unfold handle_triggered
    rw [hr1]
    exact ht1
  have hs1stats : (handle_new_message lookup_ops state_watch ev_urgent1).file.statistics =
      some ⟨1, 1⟩ := by
    have h := handle_stats lookup_ops state_watch ev_urgent1 ⟨0, 0⟩ rfl rfl
    rw [hhf1, hht1] at h
    simpa using h
  have hlc : (handle_new_message lookup_ops state_watch ev_urgent1).last_config_check =
      (990 : ℚ) := by
    unfold handle_new_message
    rw [(pipeline_frame lookup_ops _ ev_urgent1).1, hr1]
    rfl
  have hcfg : (handle_new_message lookup_ops state_watch ev_urgent1).current_config =
      cfg_active := by
    unfold handle_new_message
    rw [(pipeline_frame lookup_ops _ ev_urgent1).2.1, hr1]
    rfl
  have hmap : (handle_new_message lookup_ops state_watch ev_urgent1).last_forward_times =
      (fun c => if c = ev_urgent1.chat_id then some ev_urgent1.now
                else state_watch.last_forward_times c) := by
    unfold handle_new_message
    rw [hr1, pipeline_map]
    simp [hf1]
  have hr2 : refresh_config lookup_ops (handle_new_message lookup_ops state_watch ev_urgent1)
      ev_urgent2 = handle_new_message lookup_ops state_watch ev_urgent1 := by
    unfold refresh_config
    have : ¬ (ev_urgent2.now -
        (handle_new_message lookup_ops state_watch ev_urgent1).last_config_check > 30) := by
      rw [hlc]
      norm_num [ev_urgent2]
    simp [this]
  have hcool2 : check_cooldown
      (handle_new_message lookup_ops state_watch ev_urgent1).last_forward_times
      ev_urgent2.chat_id ev_urgent2.now
      ((handle_new_message lookup_ops state_watch ev_urgent1).current_config.cooldown.getD 2) =
      false := by
    rw [hmap, hcfg]
    norm_num [check_cooldown, ev_urgent1, ev_urgent2, cfg_active, state_watch]
  have hst2 : step_triggered (handle_new_message lookup_ops state_watch ev_urgent1)
      ev_urgent2 = false := by
    simp [step_triggered, hcool2]
  have hht2 : handle_triggered lookup_ops
      (handle_new_message lookup_ops state_watch ev_urgent1) ev_urgent2 = false := by
    unfold handle_triggered
    rw [hr2]
    exact hst2
  have hhf2 : handle_forwarded lookup_ops
      (handle_new_message lookup_ops state_watch ev_urgent1) ev_urgent2 = false := by
    unfold handle_forwarded
    rw [hr2]
    simp [step_forwarded, hst2]
  have hfinal : (handle_new_message lookup_ops
      (handle_new_message lookup_ops state_watch ev_urgent1) ev_urgent2).file.statistics =
      some ⟨1, 1⟩ := by
    have h := handle_stats lookup_ops (handle_new_message lookup_ops state_watch ev_urgent1)
      ev_urgent2 ⟨1, 1⟩ hs1stats rfl
    rw [hhf2, hht2] at h
    simpa using h
  exact ⟨by decide, by decide, hhf1, hhf2, hfinal, by decide⟩
